import Mathlib

/-!
A verification development for the Rust Copilot SDK core
(`src/rust/src/jsonrpc.rs`, `client.rs`, `session.rs`).

The Rust source is shallowly embedded: pure data flow is translated into
executable Lean functions, stateful methods become explicit
state-transition functions, and the outcomes of asynchronous waits
(enqueue success, the response that eventually completes a oneshot slot,
the stream of broadcast events observed by a waiter) are passed in as
explicit arguments.  Machine integers are modelled as `Nat`/`Int`;
fallible paths return `Except`.
-/

/-- Model of `serde_json::Value`.  Numbers are restricted to integers,
which is all the SDK core ever reads (`as_i64`). -/
inductive JValue where
  | null : JValue
  | boolVal : Bool → JValue
  | num : Int → JValue
  | str : String → JValue
  | arr : List JValue → JValue
  | obj : List (String × JValue) → JValue

/-- `Value::get(key)` — field lookup, `None` on non-objects. -/
def JValue.get : JValue → String → Option JValue
  | .obj fields, key => fields.lookup key
  | _, _ => none

/-- `Value::as_array()`. -/
def JValue.asArr : JValue → Option (List JValue)
  | .arr xs => some xs
  | _ => none

/-- `Value::as_str()`. -/
def JValue.asStr : JValue → Option String
  | .str s => some s
  | _ => none

/-- `Value::as_i64()` — integers only. -/
def JValue.asI64 : JValue → Option Int
  | .num n => some n
  | _ => none

/-- The `v as i32` wrapping cast applied to an `i64` value
(`client.rs` line 491). -/
def wrapI32 (v : Int) : Int :=
  (v + 2 ^ 31) % 2 ^ 32 - 2 ^ 31

/-- Model of `CopilotError` (`error.rs`), restricted to the variants the
embedded code paths construct or inspect.  Each variant carries the same
payload fields as the Rust enum. -/
inductive CopilotError where
  | jsonRpc (code : Int) (message : String)
  | connection (message : String)
  | session (message : String)
  | notConnected
  | protocolVersionMismatch (expected actual : Int)
  | protocolVersionNotReported (expected : Int)
  | timeout
  | invalidResponse (message : String)
  | clientStopped
deriving DecidableEq

/-- `JsonRpcError::INTERNAL_ERROR` (`error.rs` line 308). -/
def INTERNAL_ERROR : Int := -32603

/-- `JsonRpcError::METHOD_NOT_FOUND` (`error.rs` line 302). -/
def METHOD_NOT_FOUND : Int := -32601

/-- The `Display` rendering of `CopilotError` (the `#[error(...)]`
format strings of `error.rs`, quote characters omitted). -/
def CopilotError.render : CopilotError → String
  | .jsonRpc code message => "JSON-RPC error " ++ toString code ++ ": " ++ message
  | .connection m => "Connection error: " ++ m
  | .session m => "Session error: " ++ m
  | .notConnected => "Client not connected. Call start() first"
  | .protocolVersionMismatch expected actual =>
      "SDK protocol version mismatch: SDK expects version " ++ toString expected ++
      ", but server reports version " ++ toString actual ++
      ". Please update your SDK or server to ensure compatibility"
  | .protocolVersionNotReported expected =>
      "SDK protocol version mismatch: SDK expects version " ++ toString expected ++
      ", but server does not report a protocol version. Please update your server to ensure compatibility"
  | .timeout => "Timeout waiting for response"
  | .invalidResponse m => "Invalid response: " ++ m
  | .clientStopped => "Client stopped"

namespace JsonRpcClient

/-- `MAX_MESSAGE_SIZE` (`jsonrpc.rs` line 41): 100 MB ceiling on a
declared Content-Length. -/
def MAX_MESSAGE_SIZE : Nat := 100 * 1024 * 1024

/-- The header key prefix matched by `read_content_length`
(`jsonrpc.rs` line 436). -/
def contentLengthHeaderPrefix : String := "Content-Length: "

/-- The two blank-line forms accepted as end of the header block
(`jsonrpc.rs` line 431). -/
def isBlankLine (line : String) : Bool :=
  line = "\r\n" || line = "\n"

/-- `str::strip_prefix`, over character lists. -/
def dropPrefixChars : List Char → List Char → Option (List Char)
  | [], l => some l
  | _ :: _, [] => none
  | p :: ps, c :: cs => if p = c then dropPrefixChars ps cs else none

/-- Whitespace as trimmed by `str::trim` — the header values only ever
carry ASCII whitespace (the trailing CR LF), so the ASCII subset
suffices. -/
def isWhitespaceChar (c : Char) : Bool :=
  c = ' ' || c = '\t' || c = '\n' || c = '\r'

/-- `str::trim`, over character lists. -/
def trimChars (l : List Char) : List Char :=
  ((l.dropWhile isWhitespaceChar).reverse.dropWhile isWhitespaceChar).reverse

/-- One step of decimal accumulation. -/
def pushDigit (acc : Nat) (c : Char) : Nat :=
  acc * 10 + (c.toNat - 48)

/-- `usize::MAX` on the 64-bit targets the SDK ships for. -/
def USIZE_MAX : Nat := 2 ^ 64 - 1

/-- `str::parse::<usize>`: all decimal digits, nonempty, and failing
with a positive-overflow error when the denoted value exceeds
`usize::MAX` (Rust checks during accumulation; checking the final
value is equivalent). -/
def parseUsize (l : List Char) : Option Nat :=
  if l ≠ [] ∧ l.all (fun c => c.isDigit) then
    let v := l.foldl pushDigit 0
    if v ≤ USIZE_MAX then some v else none
  else
    none

/-- The Content-Length parse attempted on one header line:
`strip_prefix` then `trim` then `parse::<usize>`
(`jsonrpc.rs` lines 436 and 437). -/
def parseContentLengthLine (line : String) : Option Nat :=
  match dropPrefixChars contentLengthHeaderPrefix.data line.data with
  | some rest => parseUsize (trimChars rest)
  | none => none

/-- I/O error kinds produced by `read_content_length`. -/
inductive IoErrorKind where
  | unexpectedEof
  | invalidData
deriving DecidableEq

/-- `JsonRpcClient::read_content_length` (`jsonrpc.rs` lines 414 to 450),
over the list of header lines still available on the stream.  An empty
list models `read_line` returning 0 bytes (EOF).  `acc` is the running
`content_length` local, initially 0.  A parsed length above
`MAX_MESSAGE_SIZE` is rejected immediately; a blank line returns the
accumulated length (0 when no Content-Length header was seen). -/
def read_content_length : List String → Nat → Except IoErrorKind (Option Nat)
  | [], _ => .error .unexpectedEof
  | line :: rest, acc =>
    if isBlankLine line then
      .ok (some acc)
    else
      match parseContentLengthLine line with
      | some len =>
        if len > MAX_MESSAGE_SIZE then .error .invalidData
        else read_content_length rest len
      | none => read_content_length rest acc

/-- What one iteration of the read loop does with the header block
(`jsonrpc.rs` lines 359 to 375): exit the worker on error, skip the
frame on `Ok(None)` or a zero length, and only otherwise allocate and
read a body of the declared length. -/
inductive ReadLoopStep where
  | exitLoop
  | skipFrame
  | readBody (len : Nat)
deriving DecidableEq

/-- Classification of a header block by the read loop
(`jsonrpc.rs` lines 361 to 375). -/
def readLoopClassify (lines : List String) : ReadLoopStep :=
  match read_content_length lines 0 with
  | .error _ => .exitLoop
  | .ok none => .skipFrame
  | .ok (some 0) => .skipFrame
  | .ok (some len) => .readBody len

/-- Model of `JsonRpcResponse` (`jsonrpc.rs` lines 106 to 121): the
fields `request` and `handle_server_request` read or build.  The error
object keeps its `code`, `message` and optional `data` fields. -/
structure JsonRpcResponseM where
  id : Option JValue
  result : Option JValue
  error : Option (Int × String × Option JValue)

/-- The pending-request table
(`pending_requests : HashMap<String, oneshot::Sender<…>>`): the ids
that currently own a completion slot.  Request ids are freshly
generated UUID strings, so ids are distinct and a list of ids carries
the full map structure. -/
structure PendingTable where
  entries : List String
deriving DecidableEq

/-- `HashMap::insert` of a fresh id. -/
def PendingTable.insert (t : PendingTable) (id : String) : PendingTable :=
  ⟨id :: t.entries⟩

/-- `HashMap::remove`. -/
def PendingTable.remove (t : PendingTable) (id : String) : PendingTable :=
  ⟨t.entries.filter (fun e => e ≠ id)⟩

/-- Whether the table holds an entry for `id` (Bool form). -/
def PendingTable.containsId (t : PendingTable) (id : String) : Bool :=
  t.entries.contains id

/-- Whether the table holds an entry for `id` (Prop form). -/
def PendingTable.hasId (t : PendingTable) (id : String) : Prop :=
  id ∈ t.entries

/-- The outcome of `rx.await` on the oneshot receiver in `request`
(`jsonrpc.rs` line 649): either the read loop completed the slot with a
response, or the sender was dropped without a send. -/
inductive AwaitOutcome where
  | response (r : JsonRpcResponseM)
  | senderDropped

/-- Phase 1 of `JsonRpcClient::request` (`jsonrpc.rs` lines 627 to 631):
create the response channel and insert the completion slot into the
pending table, before anything is sent. -/
def requestInsertPhase (t : PendingTable) (requestId : String) : PendingTable :=
  t.insert requestId

/-- Phases 2 to 4 of `JsonRpcClient::request` (`jsonrpc.rs` lines 633
to 666), starting from the table state after the insert phase:
enqueue the serialized frame to the write worker (`enqueueOk` is
whether `write_tx.send` succeeded), await the response, remove the
entry, and translate the response.  Returns the call result together
with the pending-table state left behind on that path. -/
def requestSendPhase (t1 : PendingTable) (requestId : String)
    (enqueueOk : Bool) (await : AwaitOutcome) :
    Except CopilotError JValue × PendingTable :=
  if !enqueueOk then
    (.error .clientStopped, t1)
  else
    match await with
    | .senderDropped => (.error .clientStopped, t1)
    | .response r =>
      let t2 := t1.remove requestId
      match r.error with
      | some (code, message, _) => (.error (.jsonRpc code message), t2)
      | none => (.ok (r.result.getD .null), t2)

/-- `JsonRpcClient::request` (`jsonrpc.rs` lines 623 to 667) as a
transition on the pending table, with the request id, the enqueue
outcome and the awaited response supplied explicitly. -/
def request (t : PendingTable) (requestId : String)
    (enqueueOk : Bool) (await : AwaitOutcome) :
    Except CopilotError JValue × PendingTable :=
  requestSendPhase (requestInsertPhase t requestId) requestId enqueueOk await

/-- Messages understood by the write worker (`jsonrpc.rs` lines 194 to
199); the payload of `Send` is kept abstract as the serialized frame. -/
inductive WriteMessage where
  | sendFrame (frame : String)
  | stopLoop
deriving DecidableEq

/-- The client state touched by `JsonRpcClient::stop`: the `running`
flag, the pending-request table, and the queue feeding the write
worker. -/
structure RpcClientState where
  running : Bool
  pending : PendingTable
  writeQueue : List WriteMessage
deriving DecidableEq

/-- `JsonRpcClient::stop` (`jsonrpc.rs` lines 703 to 707): store `false`
into `running` and enqueue a `Stop` message for the write worker.
These two statements are the whole body — nothing else is touched. -/
def stop (s : RpcClientState) : RpcClientState :=
  { s with running := false, writeQueue := s.writeQueue ++ [WriteMessage.stopLoop] }

end JsonRpcClient

/-- The event discriminators the core reads
(`generated/session_events.rs`; the session code matches on
`AssistantMessage`, `SessionIdle` and `SessionError` and treats every
other variant as opaque, so the remaining variants are collapsed into
`otherEvent` with their discriminator kept as a string). -/
inductive SessionEventType where
  | assistantMessage
  | sessionIdle
  | sessionError
  | otherEvent (tag : String)
deriving DecidableEq

/-- The `EventData` fields the session code reads: `message` (for
`session.error`) and `content` (for assistant messages). -/
structure EventData where
  message : Option String
  content : Option String
deriving DecidableEq

/-- Model of `SessionEvent`: discriminator plus the consumed data
fields. -/
structure SessionEvent where
  type : SessionEventType
  data : EventData
deriving DecidableEq

/-- Model of `ToolBinaryResult` (`tool.rs` lines 92 to 105). -/
structure ToolBinaryResult where
  data : String
  mime_type : String
  result_type : String
  description : Option String
deriving DecidableEq

/-- Model of `ToolResult` (`tool.rs` lines 25 to 50): the record shape
`textResultForLlm / binaryResultsForLlm? / resultType / error? /
sessionLog? / toolTelemetry?`.  Telemetry is kept as an opaque JSON
value. -/
structure ToolResult where
  text_result_for_llm : String
  binary_results_for_llm : Option (List ToolBinaryResult)
  result_type : String
  error : Option String
  session_log : Option String
  tool_telemetry : Option JValue

/-- `ToolResult::failure` (`tool.rs` lines 66 to 75): generic failure
text, result type failure, the error string attached (quote characters
of the wire text omitted). -/
def ToolResult.failure (e : String) : ToolResult :=
  { text_result_for_llm :=
      "Invoking this tool produced an error. Detailed information is not available."
  , binary_results_for_llm := none
  , result_type := "failure"
  , error := some e
  , session_log := none
  , tool_telemetry := none }

/-- `ToolResult::unsupported` (`tool.rs` lines 78 to 87): a
failure-typed result naming the tool in both the LLM text and the
error string (quote characters of the wire text omitted). -/
def ToolResult.unsupported (toolName : String) : ToolResult :=
  { text_result_for_llm :=
      "Tool " ++ toolName ++ " is not supported by this client instance."
  , binary_results_for_llm := none
  , result_type := "failure"
  , error := some ("tool " ++ toolName ++ " not supported")
  , session_log := none
  , tool_telemetry := none }

namespace Session

/-- The behaviour of one registered tool handler, as observed by
`execute_tool`: it resolves with a result, resolves with an error, or
panics while running. -/
inductive HandlerBehavior where
  | returns (r : ToolResult)
  | fails (e : CopilotError)
  | panics

/-- The per-session state read and written by `destroy`,
`dispatch_event` and `execute_tool` (`session.rs` lines 56 to 73):
the `on()` handler list (kept as handler ids), the broadcast channel
receivers obtained from `subscribe()` (receiver ids — the channel
sender itself is never dropped by `destroy`), the tool-handler table
and the optional permission handler.  The Rust struct has no destroyed
flag. -/
structure SessionState where
  sessionId : String
  handlers : List Nat
  broadcastReceivers : List Nat
  toolHandlers : List (String × HandlerBehavior)
  hasPermissionHandler : Bool

/-- `Session::destroy` (`session.rs` lines 299 to 320): issue the
`session.destroy` RPC (its outcome supplied as `rpcOk`); on failure the
error propagates before anything is cleared; on success clear the
`on()` handler list, the tool-handler table and the permission
handler.  The broadcast channel and its receivers are not touched. -/
def destroy (s : SessionState) (rpcOk : Bool) :
    Except CopilotError Unit × SessionState :=
  if rpcOk then
    (.ok (), { s with handlers := [], toolHandlers := [], hasPermissionHandler := false })
  else
    (.error (.session "destroy failed"), s)

/-- `Session::dispatch_event` (`session.rs` lines 432 to 447): send the
event to the broadcast channel (every current receiver observes it),
then invoke every registered `on()` handler under `catch_unwind`.
Returns the receivers of each kind that are delivered the event.
There is no destroyed check — dispatch never returns early. -/
def dispatch_event (s : SessionState) (event : SessionEvent) :
    List (Nat × SessionEvent) × List (Nat × SessionEvent) :=
  (s.broadcastReceivers.map (fun r => (r, event)),
   s.handlers.map (fun h => (h, event)))

/-- The observable outcome of `execute_tool`: either a tool result is
produced, or the handler panicked and the panic propagated out (the
tool path has no `catch_unwind`). -/
inductive ExecOutcome where
  | result (r : ToolResult)
  | panicked

/-- `Session::execute_tool` (`session.rs` lines 357 to 384): look the
handler up in the tool table; a resolved handler value is returned as
is; a handler error becomes `ToolResult::failure(e.to_string())`; a
missing handler yields the inline failure-typed not-supported result
(built field by field at lines 374 to 381).  A panicking handler is
not caught — the panic unwinds out of `execute_tool`. -/
def execute_tool (s : SessionState) (toolName : String) : ExecOutcome :=
  match s.toolHandlers.lookup toolName with
  | some (.returns r) => .result r
  | some (.fails e) => .result (ToolResult.failure e.render)
  | some .panics => .panicked
  | none =>
    .result
      { text_result_for_llm :=
          "Tool " ++ toolName ++ " is not supported by this client instance."
      , binary_results_for_llm := none
      , result_type := "failure"
      , error := some ("tool " ++ toolName ++ " not supported")
      , session_log := none
      , tool_telemetry := none }

/-- The loop body of `send_and_wait` (`session.rs` lines 163 to 189)
over the stream of events observed on the subscription, carrying the
`last_assistant_message` local: `none` means the stream was exhausted
with neither `session.idle` nor `session.error` observed (the timeout
then fires). -/
def wait_for_idle :
    List SessionEvent → Option SessionEvent →
    Option (Except CopilotError (Option SessionEvent))
  | [], _ => none
  | e :: rest, last =>
    match e.type with
    | .assistantMessage => wait_for_idle rest (some e)
    | .sessionIdle => some (.ok last)
    | .sessionError => some (.error (.session ((e.data.message).getD "session error")))
    | .otherEvent _ => wait_for_idle rest last

/-- The two externally visible operations `send_and_wait` performs
before waiting, recorded in execution order. -/
inductive SessionAction where
  | subscribeToEvents
  | sendMessage
deriving DecidableEq

/-- `Session::send_and_wait` (`session.rs` lines 149 to 196):
subscribe first (line 156), then send (line 160) — the returned trace
lists these operations in the order the source performs them — then
wait on the subscription until idle or error, failing with a timeout
error if the observed stream is exhausted with neither.  `sendResult`
is the outcome of the inner `send` call, `events` the stream observed
on the subscription within the timeout window. -/
def send_and_wait (sendResult : Except CopilotError String)
    (events : List SessionEvent) :
    Except CopilotError (Option SessionEvent) × List SessionAction :=
  let trace := [SessionAction.subscribeToEvents, SessionAction.sendMessage]
  match sendResult with
  | .error e => (.error e, trace)
  | .ok _ =>
    match wait_for_idle events none with
    | some out => (out, trace)
    | none => (.error .timeout, trace)

/-- The update `send_and_wait` applies to its
`last_assistant_message` local on one event. -/
def trackAssistant (last : Option SessionEvent) (e : SessionEvent) :
    Option SessionEvent :=
  if e.type == SessionEventType.assistantMessage then some e else last

/-- Stated from the claim text: the most recent `assistant.message`
event in a list, or none. -/
def lastAssistantMessage (events : List SessionEvent) : Option SessionEvent :=
  events.reverse.find? (fun e => e.type == SessionEventType.assistantMessage)

/-- A list of events containing neither `session.idle` nor
`session.error`. -/
def noTerminator (events : List SessionEvent) : Prop :=
  ∀ e ∈ events, e.type ≠ SessionEventType.sessionIdle ∧
    e.type ≠ SessionEventType.sessionError

instance (events : List SessionEvent) : Decidable (noTerminator events) := by
  unfold noTerminator; infer_instance

end Session

/-- A concrete assistant.message event (content A). -/
def evAssistantA : SessionEvent :=
  { type := .assistantMessage, data := { message := none, content := some "A" } }

/-- A concrete assistant.message event (content B). -/
def evAssistantB : SessionEvent :=
  { type := .assistantMessage, data := { message := none, content := some "B" } }

/-- A concrete opaque event the core does not read. -/
def evOpaque : SessionEvent :=
  { type := .otherEvent "tool.execution_start", data := { message := none, content := none } }

/-- A concrete session.idle event. -/
def evIdle : SessionEvent :=
  { type := .sessionIdle, data := { message := none, content := none } }

/-- A concrete session.error event with message boom. -/
def evSessionError : SessionEvent :=
  { type := .sessionError, data := { message := some "boom", content := none } }

/-- A concrete session state with one `on()` handler (id 0) and one
broadcast receiver (id 1). -/
def sampleSessionState : Session.SessionState :=
  { sessionId := "s1"
  , handlers := [0]
  , broadcastReceivers := [1]
  , toolHandlers := []
  , hasPermissionHandler := true }

/-- Serialization of `ToolBinaryResult` (serde rename attributes of
`tool.rs` lines 92 to 105). -/
def ToolBinaryResult.toJValue (b : ToolBinaryResult) : JValue :=
  .obj ([("data", .str b.data), ("mimeType", .str b.mime_type),
    ("type", .str b.result_type)] ++
    (match b.description with
     | some d => [("description", .str d)]
     | none => []))

/-- Serialization of `ToolResult` (serde rename and
`skip_serializing_if` attributes of `tool.rs` lines 25 to 50): fields
in declaration order, optional fields omitted when absent. -/
def ToolResult.toJValue (r : ToolResult) : JValue :=
  .obj (("textResultForLlm", .str r.text_result_for_llm) ::
    (match r.binary_results_for_llm with
     | some bs => [("binaryResultsForLlm", .arr (bs.map ToolBinaryResult.toJValue))]
     | none => []) ++
    [("resultType", .str r.result_type)] ++
    (match r.error with
     | some e => [("error", .str e)]
     | none => []) ++
    (match r.session_log with
     | some l => [("sessionLog", .str l)]
     | none => []) ++
    (match r.tool_telemetry with
     | some t => [("toolTelemetry", t)]
     | none => []))

namespace Session

/-- The response processing of `Session::get_messages` (`session.rs`
lines 277 to 294): require an `events` field that is an array, then
keep, in order, exactly the elements that deserialize as
`SessionEvent`.  `parse` stands for
`serde_json::from_value::<SessionEvent>` — the deserializer of the
generated event schema, kept abstract here. -/
def get_messages_process (parse : JValue → Option SessionEvent)
    (result : JValue) : Except CopilotError (List SessionEvent) :=
  match (result.get "events").bind JValue.asArr with
  | none => .error (.session "invalid response: missing events")
  | some eventsRaw => .ok (eventsRaw.filterMap parse)

end Session

namespace CopilotClient

/-- `ConnectionState` (`types.rs`). -/
inductive ConnectionState where
  | Disconnected
  | Connecting
  | Connected
  | Error
deriving DecidableEq

/-- Model of `PingResponse` (`types.rs` lines 620 to 630). -/
structure PingResponse where
  message : String
  timestamp : Int
  protocol_version : Option Int
deriving DecidableEq

/-- The field extraction `ping` performs on the raw RPC result
(`client.rs` lines 478 to 492): missing or mistyped `message` falls
back to the empty string, missing or mistyped `timestamp` falls back
to 0, `protocolVersion` is optional and cast `as i32`. -/
def pingExtract (result : JValue) : PingResponse :=
  { message := (((result.get "message").bind JValue.asStr)).getD ""
  , timestamp := (((result.get "timestamp").bind JValue.asI64)).getD 0
  , protocol_version := ((result.get "protocolVersion").bind JValue.asI64).map wrapI32 }

/-- `CopilotClient::ping` (`client.rs` lines 468 to 493): fetch the RPC
client first (`none` models a client that is not connected), then
issue the `ping` request — its outcome is supplied as `rpcResult` —
and extract the response fields. -/
def ping (rpcClient : Option Unit) (rpcResult : Except CopilotError JValue) :
    Except CopilotError PingResponse :=
  match rpcClient with
  | none => .error .notConnected
  | some _ =>
    match rpcResult with
    | .error e => .error e
    | .ok v => .ok (pingExtract v)

/-- `CopilotClient::verify_protocol_version` (`client.rs` lines 972 to
988).  `expected` is the value of `get_sdk_protocol_version()` — the
compiled-in SDK version constant, whose definition lives outside the
embedded sources, so it is carried as a parameter.  A failed ping
propagates; a missing `protocol_version` is a not-reported error
naming the expected version; a differing one is a mismatch error
naming both versions. -/
def verify_protocol_version (expected : Int)
    (pingOutcome : Except CopilotError PingResponse) :
    Except CopilotError Unit :=
  match pingOutcome with
  | .error e => .error e
  | .ok r =>
    match r.protocol_version with
    | none => .error (.protocolVersionNotReported expected)
    | some version =>
      if version ≠ expected then
        .error (.protocolVersionMismatch expected version)
      else
        .ok ()

/-- The verification step of `CopilotClient::start` (`client.rs` lines
185 to 197, the state already being `Connecting`): a verification
error stores `Error` into the connection state and propagates; success
stores `Connected`. -/
def startVerifyStep (expected : Int)
    (pingOutcome : Except CopilotError PingResponse) :
    Except CopilotError Unit × ConnectionState :=
  match verify_protocol_version expected pingOutcome with
  | .error e => (.error e, ConnectionState.Error)
  | .ok _ => (.ok (), ConnectionState.Connected)

/-- The outcome of the closure installed for `tool.call`
(`client.rs` lines 918 to 968): it resolves with a response body, it
resolves with an error (which the RPC engine frames as a JSON-RPC
error response), or it panics — which happens exactly when the invoked
tool handler panics, since nothing in the tool path catches panics. -/
inductive ToolCallOutcome where
  | respond (body : JValue)
  | rpcError (e : CopilotError)
  | panicked

/-- The `tool.call` request handler (`client.rs` lines 918 to 968):
extract `sessionId`, `toolCallId` and `toolName` (empty-string
defaults), reject a payload with any of them empty, look the session
up in the registry; a missing session responds with
`ToolResult::unsupported`; otherwise the session's `execute_tool` runs
and its result is wrapped as the object with a single `result` field.
The `arguments` field is passed through to the handler and does not
influence the routing. -/
def tool_call_handler (sessions : List (String × Session.SessionState))
    (params : JValue) : ToolCallOutcome :=
  let sessionId := ((params.get "sessionId").bind JValue.asStr).getD ""
  let toolCallId := ((params.get "toolCallId").bind JValue.asStr).getD ""
  let toolName := ((params.get "toolName").bind JValue.asStr).getD ""
  if sessionId = "" ∨ toolCallId = "" ∨ toolName = "" then
    .rpcError (.invalidResponse "invalid tool call payload")
  else
    match sessions.lookup sessionId with
    | some s =>
      match Session.execute_tool s toolName with
      | .result r => .respond (.obj [("result", ToolResult.toJValue r)])
      | .panicked => .panicked
    | none => .respond (.obj [("result", ToolResult.toJValue (ToolResult.unsupported toolName))])

/-- Model of `JsonRpcRequest` (`jsonrpc.rs` lines 67 to 80) as received
from the server, `params` already defaulted to null. -/
structure JsonRpcRequestM where
  id : JValue
  method : String
  params : JValue

/-- What the engine does with one inbound server request: frame exactly
one response, or crash the read-loop task (a panic that unwinds out of
the handler kills the task that awaited it, so no response is ever
framed and the loop is gone). -/
inductive ServerRequestOutcome where
  | reply (resp : JsonRpcClient.JsonRpcResponseM)
  | crashed

/-- `handle_server_request` (`jsonrpc.rs` lines 495 to 552) composed
with the installed `tool.call` handler: a handler value becomes a
result response carrying the request's original id; a handler error
becomes an error response whose code and message are derived as at
lines 519 to 522; a handler panic yields no response at all. -/
def handle_tool_call (sessions : List (String × Session.SessionState))
    (req : JsonRpcRequestM) : ServerRequestOutcome :=
  match tool_call_handler sessions req.params with
  | .respond body =>
    .reply { id := some req.id, result := some body, error := none }
  | .rpcError e =>
    let codeMessage :=
      match e with
      | .jsonRpc code message => (code, message)
      | _ => (INTERNAL_ERROR, e.render)
    .reply { id := some req.id, result := none,
             error := some (codeMessage.1, codeMessage.2, none) }
  | .panicked => .crashed

end CopilotClient

/-- A concrete session registry holding one session with one panicking
tool handler and one failing tool handler. -/
def panickingRegistry : List (String × Session.SessionState) :=
  [("s1",
    { sessionId := "s1"
    , handlers := []
    , broadcastReceivers := []
    , toolHandlers := [("boom", .panics), ("shaky", .fails .timeout)]
    , hasPermissionHandler := false })]

/-- A concrete inbound `tool.call` request naming the panicking
handler. -/
def panickingToolCallReq : CopilotClient.JsonRpcRequestM :=
  { id := .str "42"
  , method := "tool.call"
  , params := .obj [("sessionId", .str "s1"), ("toolCallId", .str "t1"),
      ("toolName", .str "boom"), ("arguments", .null)] }

/-- A concrete inbound `tool.call` request naming the failing
handler. -/
def failingToolCallReq : CopilotClient.JsonRpcRequestM :=
  { id := .str "43"
  , method := "tool.call"
  , params := .obj [("sessionId", .str "s1"), ("toolCallId", .str "t2"),
      ("toolName", .str "shaky"), ("arguments", .null)] }

/-- A concrete stand-in for the `SessionEvent` deserializer: accepts
strings, rejects everything else. -/
def sampleEventParse : JValue → Option SessionEvent
  | .str s => some { type := .otherEvent s, data := { message := none, content := none } }
  | _ => none

/-! ## Theorems -/

namespace JsonRpcClient

/-- Helper: a header block whose lines are all non-blank and carry no
Content-Length header leaves the accumulator untouched. -/
theorem read_content_length_all_plain (hs : List String)
    (h : ∀ l ∈ hs, isBlankLine l = false ∧ parseContentLengthLine l = none)
    (acc : Nat) (rest : List String) :
    read_content_length (hs ++ rest) acc = read_content_length rest acc := by
  induction hs with
  | nil => rfl
  | cons l t ih =>
    have hl := h l (List.mem_cons_self l t)
    have ht : ∀ x ∈ t, isBlankLine x = false ∧ parseContentLengthLine x = none :=
      fun x hx => h x (List.mem_cons_of_mem l hx)
    simp only [List.cons_append, read_content_length, hl.1, hl.2, Bool.false_eq_true,
      if_false]
    exact ih ht

/-- C7 counterexample: a header block that contains one header line but
no Content-Length header is not treated as a protocol error — the
parser returns length 0 and the read loop silently skips the frame. -/
theorem missing_content_length_silently_skipped :
    JsonRpcClient.read_content_length ["X-Custom: 1\r\n", "\r\n"] 0 = .ok (some 0) ∧
    JsonRpcClient.readLoopClassify ["X-Custom: 1\r\n", "\r\n"] = .skipFrame :=
  ⟨rfl, by decide⟩

/-- C7 (amended): a header block with header lines but no Content-Length
header yields length 0 and the read loop silently skips the frame (it
does not raise a protocol error); EOF with no header line available
makes `read_content_length` return an error, on which the read worker
exits its loop. -/
theorem header_block_classification (hs : List String)
    (h : ∀ l ∈ hs, isBlankLine l = false ∧ parseContentLengthLine l = none) :
    read_content_length (hs ++ ["\r\n"]) 0 = .ok (some 0) ∧
    readLoopClassify (hs ++ ["\r\n"]) = .skipFrame ∧
    (∀ acc, read_content_length ([] : List String) acc = .error .unexpectedEof) ∧
    readLoopClassify [] = .exitLoop := by
  have h1 : read_content_length (hs ++ ["\r\n"]) 0 = .ok (some 0) := by
    rw [read_content_length_all_plain hs h 0 ["\r\n"]]
    rfl
  refine ⟨h1, ?_, fun acc => rfl, rfl⟩
  simp only [readLoopClassify, h1]

/-- Witness for `header_block_classification` at a concrete header
block. -/
theorem header_block_classification_witness :
    read_content_length (["X-Custom: 1\r\n"] ++ ["\r\n"]) 0 = .ok (some 0) ∧
    readLoopClassify (["X-Custom: 1\r\n"] ++ ["\r\n"]) = .skipFrame ∧
    (∀ acc, read_content_length ([] : List String) acc = .error .unexpectedEof) ∧
    readLoopClassify [] = .exitLoop :=
  header_block_classification ["X-Custom: 1\r\n"]
    (by intro l hl; simp only [List.mem_singleton] at hl; subst hl; exact ⟨by decide, by decide⟩)

/-- C8 counterexample: a declared Content-Length just above
`usize::MAX` (here 2 to the 64th) overflows `parse::<usize>`, so the
`if let Ok(len)` guard silently ignores the header: the length stays
0, the frame is skipped, and the read worker does not exit with a
fatal error — although the declared length exceeds the ceiling. -/
theorem overflow_content_length_silently_skipped :
    parseContentLengthLine "Content-Length: 18446744073709551616\r\n" = none ∧
    read_content_length
      ["Content-Length: 18446744073709551616\r\n", "\r\n"] 0 = .ok (some 0) ∧
    readLoopClassify
      ["Content-Length: 18446744073709551616\r\n", "\r\n"] = .skipFrame :=
  ⟨rfl, rfl, by decide⟩

/-- C8 (amended): the ceiling constant is 100 MiB, between 64 MiB and
1 GiB inclusive; a header line whose declared Content-Length parses as
a `usize` and exceeds the ceiling makes `read_content_length` fail at
once with an `InvalidData` error, so the read loop exits without ever
reaching the body-allocation step (`ReadLoopStep.readBody` is the only
step that allocates and reads a body buffer).  A declared length too
large for `usize` never parses and is silently ignored instead. -/
theorem oversize_content_length_fatal :
    (64 * 1024 * 1024 ≤ MAX_MESSAGE_SIZE ∧ MAX_MESSAGE_SIZE ≤ 1024 * 1024 * 1024) ∧
    ∀ pre line post len,
      (∀ l ∈ pre, isBlankLine l = false ∧ parseContentLengthLine l = none) →
      isBlankLine line = false →
      parseContentLengthLine line = some len →
      len > MAX_MESSAGE_SIZE →
      (∀ acc, read_content_length (pre ++ line :: post) acc = .error .invalidData) ∧
      readLoopClassify (pre ++ line :: post) = .exitLoop := by
  refine ⟨⟨by decide, by decide⟩, ?_⟩
  intro pre line post len hpre hblank hparse hlen
  have hstep : ∀ acc, read_content_length (pre ++ line :: post) acc = .error .invalidData := by
    intro acc
    rw [read_content_length_all_plain pre hpre acc (line :: post)]
    simp only [read_content_length, hblank, Bool.false_eq_true, if_false, hparse]
    simp only [hlen, if_pos]
  refine ⟨hstep, ?_⟩
  simp only [readLoopClassify, hstep 0]

/-- Witness for `oversize_content_length_fatal`: a declared length of
exactly one byte above the ceiling is rejected. -/
theorem oversize_content_length_fatal_witness :
    (∀ acc, read_content_length ([] ++ "Content-Length: 104857601\r\n" :: []) acc =
      .error .invalidData) ∧
    readLoopClassify ([] ++ "Content-Length: 104857601\r\n" :: []) = .exitLoop :=
  oversize_content_length_fatal.2 [] "Content-Length: 104857601\r\n" [] 104857601
    (by intro l hl; cases hl) (by decide) (by decide) (by decide)

/-- C1 counterexample: when the enqueue to the write worker fails, the
error is returned with the pending-table entry for the fresh id still
present — the insertion is not rolled back. -/
theorem request_enqueue_failure_leaks_entry :
    (request ⟨[]⟩ "r1" false .senderDropped).1 = .error .clientStopped ∧
    (request ⟨[]⟩ "r1" false .senderDropped).2.containsId "r1" = true ∧
    (request ⟨[]⟩ "r1" false .senderDropped).2 ≠ (⟨[]⟩ : PendingTable) := by
  refine ⟨rfl, by decide, by decide⟩

/-- C1 (amended): `request` inserts the completion slot for the fresh
id into the pending table before the outbound frame is enqueued, but
when enqueuing fails the insertion is not rolled back: the error is
returned to the caller with the table still holding an entry for that
id. -/
theorem request_insert_before_enqueue (t : PendingTable) (requestId : String)
    (await : AwaitOutcome) :
    (requestInsertPhase t requestId).hasId requestId ∧
    (request t requestId false await).1 = .error .clientStopped ∧
    (request t requestId false await).2.hasId requestId := by
  refine ⟨List.mem_cons_self _ _, ?_, ?_⟩
  · cases await <;> rfl
  · cases await <;> exact List.mem_cons_self _ _

/-- C3 counterexample: stopping the client while a request is
outstanding leaves its pending-table entry in place and signals no
completion — the caller is not completed with a client-stopped error
by `stop`. -/
theorem stop_leaves_pending_entry :
    (stop ⟨true, ⟨["r1"]⟩, []⟩).pending.containsId "r1" = true ∧
    (stop ⟨true, ⟨["r1"]⟩, []⟩).pending = ⟨["r1"]⟩ := by
  exact ⟨by decide, rfl⟩

/-- C3 (amended): `stop` only clears the `running` flag and enqueues a
stop message for the write worker; the pending-request table is left
exactly as it was, so outstanding `request` callers are not completed
by `stop` — they receive a client-stopped error only if their
completion slot is later dropped. -/
theorem stop_does_not_touch_pending (s : RpcClientState) :
    (stop s).pending = s.pending ∧
    (stop s).running = false ∧
    (stop s).writeQueue = s.writeQueue ++ [WriteMessage.stopLoop] :=
  ⟨rfl, rfl, rfl⟩

end JsonRpcClient

namespace Session

/-- Helper: a stream without idle or error events never resolves the
wait — the timeout branch is reached. -/
theorem wait_for_idle_of_noTerminator (evs : List SessionEvent)
    (h : noTerminator evs) :
    ∀ last, wait_for_idle evs last = none := by
  induction evs with
  | nil => intro last; rfl
  | cons e t ih =>
    intro last
    have he := h e (List.mem_cons_self e t)
    have ht : noTerminator t := fun x hx => h x (List.mem_cons_of_mem e hx)
    obtain ⟨ty, d⟩ := e
    cases ty with
    | assistantMessage => simpa [wait_for_idle] using ih ht (some ⟨.assistantMessage, d⟩)
    | sessionIdle => exact absurd rfl he.1
    | sessionError => exact absurd rfl he.2
    | otherEvent tag => simpa [wait_for_idle] using ih ht last

/-- Helper: events before the first terminator only update the
last-assistant-message accumulator. -/
theorem wait_for_idle_append (pre : List SessionEvent) (h : noTerminator pre) :
    ∀ (last : Option SessionEvent) (rest : List SessionEvent),
      wait_for_idle (pre ++ rest) last =
        wait_for_idle rest (pre.foldl trackAssistant last) := by
  induction pre with
  | nil => intro last rest; rfl
  | cons e t ih =>
    intro last rest
    have he := h e (List.mem_cons_self e t)
    have ht : noTerminator t := fun x hx => h x (List.mem_cons_of_mem e hx)
    obtain ⟨ty, d⟩ := e
    cases ty with
    | assistantMessage =>
      have hupd : trackAssistant last ⟨.assistantMessage, d⟩ =
          some ⟨.assistantMessage, d⟩ := by simp [trackAssistant]
      simp only [List.cons_append, wait_for_idle, List.foldl_cons, hupd]
      exact ih ht (some ⟨.assistantMessage, d⟩) rest
    | sessionIdle => exact absurd rfl he.1
    | sessionError => exact absurd rfl he.2
    | otherEvent tag =>
      have hupd : trackAssistant last ⟨.otherEvent tag, d⟩ = last := by
        simp [trackAssistant]
      simp only [List.cons_append, wait_for_idle, List.foldl_cons, hupd]
      exact ih ht last rest

/-- Helper: the accumulator computed by the wait loop is the most
recent assistant.message of the consumed prefix (falling back to the
incoming accumulator). -/
theorem foldl_trackAssistant (pre : List SessionEvent) :
    ∀ last, pre.foldl trackAssistant last = (lastAssistantMessage pre).or last := by
  induction pre with
  | nil => intro last; simp [lastAssistantMessage]
  | cons e t ih =>
    intro last
    simp only [List.foldl_cons]
    rw [ih]
    unfold lastAssistantMessage
    simp only [List.reverse_cons, List.find?_append]
    cases hp : (e.type == SessionEventType.assistantMessage) with
    | true =>
      have hupd : trackAssistant last e = some e := by simp [trackAssistant, hp]
      rw [hupd]
      simp only [List.find?, hp]
      cases t.reverse.find? (fun x => x.type == SessionEventType.assistantMessage) <;>
        simp [Option.or]
    | false =>
      have hupd : trackAssistant last e = last := by simp [trackAssistant, hp]
      rw [hupd]
      simp only [List.find?, hp]
      cases t.reverse.find? (fun x => x.type == SessionEventType.assistantMessage) <;>
        simp [Option.or]

end Session

/-- C2 counterexample: destroy a session that has one broadcast
subscriber; dispatching a later event still delivers it to that
subscriber, so event delivery does not stop for all subscribers once
destroy has completed (there is no destroyed flag and dispatch has no
early return). -/
theorem destroyed_session_still_delivers_to_subscriber :
    (Session.dispatch_event (Session.destroy sampleSessionState true).2 evIdle).1 =
      [(1, evIdle)] ∧
    (Session.dispatch_event (Session.destroy sampleSessionState true).2 evIdle).1 ≠ [] :=
  ⟨rfl, by decide⟩

/-- C2 (amended): when the `session.destroy` RPC succeeds, `destroy`
clears the `on()` handler list, the tool-handler table and the
permission handler, so no `on()`-registered subscriber receives
further events; a second `destroy` succeeds with no further effect.
But the broadcast channel is untouched: every receiver obtained from
`subscribe()` still receives every later dispatched event, and there
is no destroyed flag that would short-circuit `dispatch_event`. -/
theorem destroy_clears_handlers_not_broadcast (s : Session.SessionState)
    (e : SessionEvent) :
    (Session.destroy s true).1 = .ok () ∧
    (Session.destroy s true).2.handlers = [] ∧
    (Session.destroy s true).2.toolHandlers = [] ∧
    (Session.destroy s true).2.hasPermissionHandler = false ∧
    (Session.dispatch_event (Session.destroy s true).2 e).2 = [] ∧
    (Session.dispatch_event (Session.destroy s true).2 e).1 =
      s.broadcastReceivers.map (fun r => (r, e)) ∧
    Session.destroy (Session.destroy s true).2 true =
      (.ok (), (Session.destroy s true).2) :=
  ⟨rfl, rfl, rfl, rfl, rfl, rfl, rfl⟩

/-- C5: `send_and_wait` subscribes before it sends (the trace lists the
two operations in execution order); after a successful send, observing
a `session.idle` event returns the most recent `assistant.message`
event seen since the call began (none if there was none), observing a
`session.error` event first fails with a session error carrying that
event's message (default text when the field is absent), and a window
with neither event fails with the timeout error. -/
theorem send_and_wait_spec :
    (∀ sendResult events, (Session.send_and_wait sendResult events).2 =
      [Session.SessionAction.subscribeToEvents, Session.SessionAction.sendMessage]) ∧
    (∀ (m : String) pre ev post, Session.noTerminator pre →
      ev.type = SessionEventType.sessionIdle →
      (Session.send_and_wait (.ok m) (pre ++ ev :: post)).1 =
        .ok (Session.lastAssistantMessage pre)) ∧
    (∀ (m : String) pre ev post, Session.noTerminator pre →
      ev.type = SessionEventType.sessionError →
      (Session.send_and_wait (.ok m) (pre ++ ev :: post)).1 =
        .error (.session ((ev.data.message).getD "session error"))) ∧
    (∀ (m : String) events, Session.noTerminator events →
      (Session.send_and_wait (.ok m) events).1 = .error .timeout) := by
  refine ⟨?_, ?_, ?_, ?_⟩
  · intro sendResult events
    cases sendResult with
    | error e => rfl
    | ok m =>
      simp only [Session.send_and_wait]
      cases Session.wait_for_idle events none <;> rfl
  · intro m pre ev post hpre hev
    have hwait : Session.wait_for_idle (pre ++ ev :: post) none =
        some (.ok (Session.lastAssistantMessage pre)) := by
      rw [Session.wait_for_idle_append pre hpre none (ev :: post)]
      rw [Session.foldl_trackAssistant pre none, Option.or_none]
      simp only [Session.wait_for_idle, hev]
    simp only [Session.send_and_wait, hwait]
  · intro m pre ev post hpre hev
    have hwait : Session.wait_for_idle (pre ++ ev :: post) none =
        some (.error (.session ((ev.data.message).getD "session error"))) := by
      rw [Session.wait_for_idle_append pre hpre none (ev :: post)]
      simp only [Session.wait_for_idle, hev]
    simp only [Session.send_and_wait, hwait]
  · intro m events hev
    have hwait := Session.wait_for_idle_of_noTerminator events hev none
    simp only [Session.send_and_wait, hwait]

/-- Witness for `send_and_wait_spec`: two assistant messages and an
opaque event followed by idle return the second assistant message. -/
theorem send_and_wait_spec_witness :
    (Session.send_and_wait (.ok "m1")
      ([evAssistantA, evOpaque, evAssistantB] ++ evIdle :: [])).1 =
      .ok (Session.lastAssistantMessage [evAssistantA, evOpaque, evAssistantB]) ∧
    Session.lastAssistantMessage [evAssistantA, evOpaque, evAssistantB] =
      some evAssistantB :=
  ⟨send_and_wait_spec.2.1 "m1" [evAssistantA, evOpaque, evAssistantB] evIdle []
    (by decide) rfl, by decide⟩

/-- C4: given that the ping round-trip succeeded with response `r`,
the verification step of `start` fails if and only if the reported
protocol version is absent or differs from the compiled-in constant;
the not-reported error names the expected version, the mismatch error
names both the expected and the actual version, the connection state
is left at `Error` on failure, and a matching version proceeds to
`Connected`. -/
theorem start_protocol_version_gate (expected : Int)
    (r : CopilotClient.PingResponse) :
    (r.protocol_version = none →
      CopilotClient.startVerifyStep expected (.ok r) =
        (.error (.protocolVersionNotReported expected),
         CopilotClient.ConnectionState.Error)) ∧
    (∀ v, r.protocol_version = some v → v ≠ expected →
      CopilotClient.startVerifyStep expected (.ok r) =
        (.error (.protocolVersionMismatch expected v),
         CopilotClient.ConnectionState.Error)) ∧
    (r.protocol_version = some expected →
      CopilotClient.startVerifyStep expected (.ok r) =
        (.ok (), CopilotClient.ConnectionState.Connected)) ∧
    ((CopilotClient.startVerifyStep expected (.ok r)).1 = .ok () ↔
      r.protocol_version = some expected) := by
  refine ⟨?_, ?_, ?_, ?_⟩
  · intro h
    simp only [CopilotClient.startVerifyStep, CopilotClient.verify_protocol_version, h]
  · intro v h hne
    simp only [CopilotClient.startVerifyStep, CopilotClient.verify_protocol_version, h,
      if_pos hne]
  · intro h
    simp [CopilotClient.startVerifyStep, CopilotClient.verify_protocol_version, h]
  · cases h : r.protocol_version with
    | none =>
      simp [CopilotClient.startVerifyStep, CopilotClient.verify_protocol_version, h]
    | some v =>
      by_cases hv : v = expected
      · subst hv
        simp [CopilotClient.startVerifyStep, CopilotClient.verify_protocol_version, h]
      · simp [CopilotClient.startVerifyStep, CopilotClient.verify_protocol_version, h, hv]

/-- Witness for `start_protocol_version_gate`: expected version 1,
server reports 2 — start fails with the mismatch error naming both
versions and the state ends at `Error`. -/
theorem start_protocol_version_gate_witness :
    CopilotClient.startVerifyStep 1
      (.ok { message := "", timestamp := 0, protocol_version := some 2 }) =
      (.error (.protocolVersionMismatch 1 2), CopilotClient.ConnectionState.Error) :=
  (start_protocol_version_gate 1
    { message := "", timestamp := 0, protocol_version := some 2 }).2.1 2 rfl (by decide)

/-- C6 counterexample: a registered tool handler that panics is not
caught anywhere in the tool path — `execute_tool` has no
`catch_unwind` — so the panic escapes: the engine frames no response
at all and the read-loop task is killed, rather than a failure-typed
tool result being sent back. -/
theorem tool_handler_panic_escapes :
    CopilotClient.handle_tool_call panickingRegistry panickingToolCallReq =
      CopilotClient.ServerRequestOutcome.crashed := rfl

/-- Helper: the routing of the `tool.call` handler once the three
identifying fields extracted from the params are known and
nonempty. -/
theorem tool_call_handler_routing
    (sessions : List (String × Session.SessionState)) (params : JValue)
    (sid tname : String)
    (hS : ((params.get "sessionId").bind JValue.asStr).getD "" = sid)
    (hC : ((params.get "toolCallId").bind JValue.asStr).getD "" ≠ "")
    (hN : ((params.get "toolName").bind JValue.asStr).getD "" = tname)
    (hS0 : sid ≠ "") (hN0 : tname ≠ "") :
    CopilotClient.tool_call_handler sessions params =
      match sessions.lookup sid with
      | some s =>
        match Session.execute_tool s tname with
        | .result r => .respond (.obj [("result", ToolResult.toJValue r)])
        | .panicked => .panicked
      | none =>
        .respond (.obj [("result", ToolResult.toJValue (ToolResult.unsupported tname))]) := by
  unfold CopilotClient.tool_call_handler
  rw [hS, hN]
  rw [if_neg]
  push_neg
  exact ⟨hS0, hC, hN0⟩

/-- C6 (amended): for an inbound `tool.call` whose extracted
`sessionId`, `toolCallId` and `toolName` are all nonempty, an unknown
session or an unregistered tool name is answered with a
failure-typed not-supported tool result naming the tool, wrapped as
the single-field `result` object in a response carrying the request's
original id; a handler that resolves with an error is answered the
same way with `ToolResult::failure` of the rendered error; but a
handler panic is not converted — no tool result is framed and the
read-loop task crashes. -/
theorem tool_call_fault_containment
    (sessions : List (String × Session.SessionState))
    (req : CopilotClient.JsonRpcRequestM) (sid tname : String)
    (hS : ((req.params.get "sessionId").bind JValue.asStr).getD "" = sid)
    (hC : ((req.params.get "toolCallId").bind JValue.asStr).getD "" ≠ "")
    (hN : ((req.params.get "toolName").bind JValue.asStr).getD "" = tname)
    (hS0 : sid ≠ "") (hN0 : tname ≠ "") :
    (sessions.lookup sid = none →
      CopilotClient.handle_tool_call sessions req = .reply
        { id := some req.id
        , result := some (.obj [("result",
            ToolResult.toJValue (ToolResult.unsupported tname))])
        , error := none }) ∧
    (∀ s, sessions.lookup sid = some s →
      (s.toolHandlers.lookup tname = none →
        CopilotClient.handle_tool_call sessions req = .reply
          { id := some req.id
          , result := some (.obj [("result",
              ToolResult.toJValue (ToolResult.unsupported tname))])
          , error := none }) ∧
      (∀ r, s.toolHandlers.lookup tname = some (.returns r) →
        CopilotClient.handle_tool_call sessions req = .reply
          { id := some req.id
          , result := some (.obj [("result", ToolResult.toJValue r)])
          , error := none }) ∧
      (∀ e, s.toolHandlers.lookup tname = some (.fails e) →
        CopilotClient.handle_tool_call sessions req = .reply
          { id := some req.id
          , result := some (.obj [("result",
              ToolResult.toJValue (ToolResult.failure (CopilotError.render e)))])
          , error := none }) ∧
      (s.toolHandlers.lookup tname = some .panics →
        CopilotClient.handle_tool_call sessions req = .crashed)) := by
  have hroute := tool_call_handler_routing sessions req.params sid tname hS hC hN hS0 hN0
  refine ⟨?_, ?_⟩
  · intro hlook
    simp only [CopilotClient.handle_tool_call, hroute, hlook]
  · intro s hlook
    refine ⟨?_, ?_, ?_, ?_⟩
    · intro htool
      simp only [CopilotClient.handle_tool_call, hroute, hlook,
        Session.execute_tool, htool, ToolResult.unsupported]
    · intro r htool
      simp only [CopilotClient.handle_tool_call, hroute, hlook,
        Session.execute_tool, htool]
    · intro e htool
      simp only [CopilotClient.handle_tool_call, hroute, hlook,
        Session.execute_tool, htool]
    · intro htool
      simp only [CopilotClient.handle_tool_call, hroute, hlook,
        Session.execute_tool, htool]

/-- Witness for `tool_call_fault_containment`: the failing handler of
the concrete registry is answered with a failure-typed tool result in
a `result` response carrying the original id. -/
theorem tool_call_fault_containment_witness :
    CopilotClient.handle_tool_call panickingRegistry failingToolCallReq = .reply
      { id := some (.str "43")
      , result := some (.obj [("result",
          ToolResult.toJValue (ToolResult.failure (CopilotError.render .timeout)))])
      , error := none } :=
  ((tool_call_fault_containment panickingRegistry failingToolCallReq "s1" "shaky"
      rfl (by decide) rfl (by decide) (by decide)).2
    { sessionId := "s1"
    , handlers := []
    , broadcastReceivers := []
    , toolHandlers := [("boom", .panics), ("shaky", .fails .timeout)]
    , hasPermissionHandler := false } rfl).2.2.1 .timeout rfl

/-- C9: on a successful `session.getMessages` response whose `events`
field is an array, `get_messages` returns exactly the in-order
subsequence of the array elements that deserialize as `SessionEvent`
(`filterMap` of the parser), silently skipping failing elements — so
the result can only be shorter than the server-side list, never an
error; when `events` is missing or not an array, it fails with the
session error about the missing field. -/
theorem get_messages_parse_subsequence (parse : JValue → Option SessionEvent)
    (result : JValue) :
    (∀ xs, result.get "events" = some (.arr xs) →
      Session.get_messages_process parse result = .ok (xs.filterMap parse) ∧
      (xs.filterMap parse).length ≤ xs.length) ∧
    ((result.get "events").bind JValue.asArr = none →
      Session.get_messages_process parse result =
        .error (.session "invalid response: missing events")) := by
  constructor
  · intro xs h
    constructor
    · simp only [Session.get_messages_process, h, Option.some_bind, JValue.asArr]
    · exact List.length_filterMap_le parse xs
  · intro h
    simp only [Session.get_messages_process, h]

/-- Witness for `get_messages_parse_subsequence`: an `events` array
with one parseable and one unparseable element yields exactly the
parsed one. -/
theorem get_messages_parse_subsequence_witness :
    Session.get_messages_process sampleEventParse
      (.obj [("events", .arr [.str "a", .num 3])]) =
      .ok ([JValue.str "a", JValue.num 3].filterMap sampleEventParse) ∧
    ([JValue.str "a", JValue.num 3].filterMap sampleEventParse).length ≤
      ([JValue.str "a", JValue.num 3] : List JValue).length :=
  (get_messages_parse_subsequence sampleEventParse
    (.obj [("events", .arr [.str "a", .num 3])])).1
    [JValue.str "a", JValue.num 3] rfl

/-- C10: `ping` never fails because of missing or mistyped result
fields — a successful RPC round-trip always yields a response, with a
missing or non-string `message` defaulting to the empty string, a
missing or non-integer `timestamp` defaulting to 0 and a missing
`protocolVersion` left absent; an error is returned exactly when the
RPC layer reports one. -/
theorem ping_lenient_field_extraction :
    (∀ v, CopilotClient.ping (some ()) (.ok v) =
      .ok (CopilotClient.pingExtract v)) ∧
    (∀ v, (v.get "message").bind JValue.asStr = none →
      (CopilotClient.pingExtract v).message = "") ∧
    (∀ v, (v.get "timestamp").bind JValue.asI64 = none →
      (CopilotClient.pingExtract v).timestamp = 0) ∧
    (∀ v, v.get "protocolVersion" = none →
      (CopilotClient.pingExtract v).protocol_version = none) ∧
    (∀ e, CopilotClient.ping (some ()) (.error e) = .error e) := by
  refine ⟨fun v => rfl, ?_, ?_, ?_, fun e => rfl⟩
  · intro v h
    simp [CopilotClient.pingExtract, h]
  · intro v h
    simp [CopilotClient.pingExtract, h]
  · intro v h
    simp [CopilotClient.pingExtract, h]

/-- Witness for `ping_lenient_field_extraction` at the empty result
object: ping succeeds with all defaults. -/
theorem ping_lenient_field_extraction_witness :
    CopilotClient.ping (some ()) (.ok (.obj [])) =
      .ok (CopilotClient.pingExtract (.obj [])) ∧
    (CopilotClient.pingExtract (.obj [])).message = "" ∧
    (CopilotClient.pingExtract (.obj [])).timestamp = 0 ∧
    (CopilotClient.pingExtract (.obj [])).protocol_version = none :=
  ⟨ping_lenient_field_extraction.1 (.obj []),
   ping_lenient_field_extraction.2.1 (.obj []) rfl,
   ping_lenient_field_extraction.2.2.1 (.obj []) rfl,
   ping_lenient_field_extraction.2.2.2.1 (.obj []) rfl⟩
